import Mathlib

/-!
Verification of the sentiment reconciliation engine of the B5W2 customer
UX analytics repository, embedded shallowly from
src/nlp/sentiment_classifier.py (class SentimentEnsembler).

Scores produced by the three scorer adapters (DistilBERT, VADER, TextBlob)
are external model outputs; they are abstracted as rational inputs to the
pure decision logic, which is translated from the source. Floating-point
scores are modelled as rationals; the square root in the uncertainty field
forces that one field into the reals.
-/

namespace SentimentEnsembler

/-- Record returned by compute_ensemble: the three scorer outputs, the
equal-weight ensemble score, the thresholded label, and the dispersion of
the scorers. Mirrors the dict built at sentiment_classifier.py lines
115-122. -/
structure EnsembleResult where
  bert : ℚ
  vader : ℚ
  textblob : ℚ
  ensemble : ℚ
  label : String
  uncertainty : ℝ

/-- Full per-review output record assembled by run: the compute_ensemble
fields augmented with rule_label and flag (sentiment_classifier.py lines
200-208). Field names follow the source exactly. -/
structure SentimentRecord where
  bert : ℚ
  vader : ℚ
  textblob : ℚ
  ensemble : ℚ
  label : String
  uncertainty : ℝ
  rule_label : String
  flag : Bool

/-- Thresholded labelling of the ensemble score: the if-chain at
sentiment_classifier.py lines 107-113. -/
def labelOf (ensemble_score : ℚ) : String :=
  if ensemble_score ≥ 0.05 then "positive"
  else if ensemble_score ≤ -0.05 then "negative"
  else "neutral"

/-- Population variance of the three scores, as computed by
np.std([b, v, t]) squared: mean of squared deviations from the mean
(ddof = 0, the numpy default). -/
def popVariance (b v t : ℚ) : ℚ :=
  ((b - (b + v + t) / 3) ^ 2 + (v - (b + v + t) / 3) ^ 2
    + (t - (b + v + t) / 3) ^ 2) / 3

/-- Translation of compute_ensemble (sentiment_classifier.py lines
87-122), with the three adapter scores passed in as inputs. The ensemble
is the equal-weight mean, the uncertainty is np.std of the three scores,
the label is the thresholded ensemble score. -/
noncomputable def computeEnsemble (b_score v_score t_score : ℚ) : EnsembleResult :=
  { bert := b_score
    vader := v_score
    textblob := t_score
    ensemble := (b_score + v_score + t_score) / 3
    label := labelOf ((b_score + v_score + t_score) / 3)
    uncertainty := Real.sqrt ((popVariance b_score v_score t_score : ℚ) : ℝ) }

/-- Allowed labels per star rating: the if-chain at
sentiment_classifier.py lines 133-142. -/
def allowedLabels (rating : ℤ) : List String :=
  if rating ≥ 5 then ["positive", "neutral", "negative"]
  else if rating = 4 then ["positive", "neutral", "negative"]
  else if rating = 3 then ["positive", "neutral", "negative"]
  else if rating = 2 then ["neutral", "negative"]
  else ["negative"]

/-- Translation of apply_rating_rule (sentiment_classifier.py lines
124-144): keep the ensemble label when admissible for the rating,
otherwise fall back to neutral. -/
def applyRatingRule (ensemble_label : String) (rating : ℤ) : String :=
  if ensemble_label ∈ allowedLabels rating then ensemble_label else "neutral"

/-- Numeric target of a label: the dict literal at
sentiment_classifier.py line 169. A lookup at any other string raises
KeyError in the source, modelled by none. -/
def ruleValue (rule_label : String) : Option ℤ :=
  if rule_label = "positive" then some 1
  else if rule_label = "neutral" then some 0
  else if rule_label = "negative" then some (-1)
  else none

/-- Translation of flag_disagreement (sentiment_classifier.py lines
146-171): true when the labels differ and the ensemble score is farther
than threshold from the numeric target of the rule label. The source
default for threshold is 0.5; callers here pass it explicitly. -/
def flagDisagreement (ens_label rule_label : String) (ens_score threshold : ℚ) :
    Option Bool :=
  (ruleValue rule_label).map fun rule_val =>
    decide (ens_label ≠ rule_label) && decide (|ens_score - (rule_val : ℚ)| > threshold)

/-- Input row of the batch runner: the value of the text column and the
rating column. Extra passthrough columns of the source DataFrame do not
affect the engine and are not modelled. -/
structure Row where
  text : String
  rating : ℤ
deriving DecidableEq, Repr

/-- Input DataFrame of run: its column names and its rows. A column
missing from `columns` is missing for every row, as in pandas. -/
structure DataFrame where
  columns : List String
  rows : List Row
deriving DecidableEq, Repr

/-- Per-row body of the loop in run (sentiment_classifier.py lines
200-208): score the text, apply the rating rule, and flag, with the
default threshold 0.5. The none branch of the flag lookup is unreachable
because applyRatingRule always returns a valid key (lemma
ruleValue_applyRatingRule_isSome below). -/
noncomputable def processRow (score : String → ℚ × ℚ × ℚ) (row : Row) :
    SentimentRecord :=
  let s := score row.text
  let rec0 := computeEnsemble s.1 s.2.1 s.2.2
  let rl := applyRatingRule rec0.label row.rating
  let fl := (flagDisagreement rec0.label rl rec0.ensemble (1 / 2)).getD false
  { bert := rec0.bert
    vader := rec0.vader
    textblob := rec0.textblob
    ensemble := rec0.ensemble
    label := rec0.label
    uncertainty := rec0.uncertainty
    rule_label := rl
    flag := fl }

/-- Translation of run (sentiment_classifier.py lines 173-215): check the
required columns, loop over the rows appending one sentiment record per
row, and pair each original row with its record (the concat of the
original frame with the sentiment frame, row-aligned by index). The
KeyError of line 195 is modelled as Except.error. -/
noncomputable def run (score : String → ℚ × ℚ × ℚ) (text_col : String)
    (df : DataFrame) : Except String (List (Row × SentimentRecord)) :=
  if text_col ∉ df.columns ∨ "rating" ∉ df.columns then
    Except.error "Required columns missing"
  else
    Except.ok (df.rows.zip
      (df.rows.foldl (fun records row => records ++ [processRow score row]) []))

/-- Flag logic of the composed pipeline as a function of rating and
ensemble score: labelOf, then applyRatingRule, then flagDisagreement at
the default threshold 0.5, exactly as the run loop composes them. -/
def pipelineFlag (rating : ℤ) (e : ℚ) : Option Bool :=
  flagDisagreement (labelOf e) (applyRatingRule (labelOf e) rating) e (1 / 2)

/-- Spec-side restatement of the composed flag logic for the refinement
claim: flag exactly when the rating is 1 or 2 and the ensemble score
exceeds 0.5. -/
def specFlag (rating : ℤ) (e : ℚ) : Bool :=
  decide ((rating = 1 ∨ rating = 2) ∧ e > 1 / 2)

/-- Any member of an allowedLabels list is one of the three labels. -/
theorem mem_allowedLabels (lbl : String) (rating : ℤ)
    (h : lbl ∈ allowedLabels rating) :
    lbl = "positive" ∨ lbl = "neutral" ∨ lbl = "negative" := by
  unfold allowedLabels at h
  split_ifs at h <;> simp_all

/-- applyRatingRule always returns a valid key of the numeric map. -/
theorem ruleValue_applyRatingRule_isSome (lbl : String) (rating : ℤ) :
    (ruleValue (applyRatingRule lbl rating)).isSome := by
  unfold applyRatingRule
  split_ifs with h
  · rcases mem_allowedLabels lbl rating h with h1 | h1 | h1 <;>
      simp [h1, ruleValue]
  · simp [ruleValue]

/-- labelOf is positive on scores at or above the threshold. -/
theorem labelOf_pos {e : ℚ} (h : 0.05 ≤ e) : labelOf e = "positive" :=
  if_pos h

/-- labelOf is negative on scores at or below the negated threshold. -/
theorem labelOf_neg {e : ℚ} (h : e ≤ -0.05) : labelOf e = "negative" := by
  unfold labelOf
  rw [if_neg (by norm_num; linarith), if_pos h]

/-- labelOf is neutral strictly between the thresholds. -/
theorem labelOf_neu {e : ℚ} (h1 : -0.05 < e) (h2 : e < 0.05) :
    labelOf e = "neutral" := by
  unfold labelOf
  rw [if_neg (by linarith), if_neg (by linarith)]

/-- Agreement of the two labels yields flag false whenever the rule label
is a valid key. -/
theorem flagDisagreement_self {lbl : String} {rv : ℤ}
    (h : ruleValue lbl = some rv) (e th : ℚ) :
    flagDisagreement lbl lbl e th = some false := by
  simp [flagDisagreement, h]

/-- C1: flag_disagreement returns true iff the ensemble label differs
from the rule label and the distance between the ensemble score and the
numeric target of the rule label exceeds the threshold, for any
threshold (the Batch Runner uses the default 0.5); consequently the flag
is false whenever the two labels are equal. -/
theorem flag_disagreement_spec (ens rule : String) (s t : ℚ) (rv : ℤ)
    (h : ruleValue rule = some rv) :
    (flagDisagreement ens rule s t = some true ↔
      (ens ≠ rule ∧ |s - (rv : ℚ)| > t)) ∧
    (ens = rule → flagDisagreement ens rule s t = some false) := by
  constructor
  · simp [flagDisagreement, h]
  · intro he
    subst he
    exact flagDisagreement_self h s t

/-- Witness for C1 at ens positive, rule neutral, score 1, threshold 0.5. -/
theorem flag_disagreement_spec_witness :
    ruleValue "neutral" = some 0 ∧
    ((flagDisagreement "positive" "neutral" 1 (1 / 2) = some true ↔
      (("positive" : String) ≠ "neutral" ∧ |(1 : ℚ) - ((0 : ℤ) : ℚ)| > 1 / 2)) ∧
    (("positive" : String) = "neutral" →
      flagDisagreement "positive" "neutral" 1 (1 / 2) = some false)) :=
  ⟨by decide, flag_disagreement_spec "positive" "neutral" 1 (1 / 2) 0 (by decide)⟩

/-- Counterexample to C2: a record produced by the engine from a rating-1
review with uniformly positive scores carries rule_label neutral, which
is outside allowedLabels 1 = [negative]. -/
theorem rule_label_outside_allowed_cex :
    (processRow (fun _ => (1, 1, 1)) ⟨"great app", 1⟩).rule_label = "neutral" ∧
    "neutral" ∉ allowedLabels 1 := by
  constructor
  · show applyRatingRule (labelOf ((1 + 1 + 1) / 3)) 1 = "neutral"
    rw [labelOf_pos (by norm_num)]
    decide
  · decide

/-- C2 amended: for ratings 2 to 5 the rule label always lies in the
allowed set of the rating; for rating 1 the rule label is negative or
neutral, where neutral can fall outside allowedLabels 1. -/
theorem apply_rating_rule_allowed (lbl : String) (rating : ℤ)
    (h1 : 1 ≤ rating) (h5 : rating ≤ 5) :
    (2 ≤ rating → applyRatingRule lbl rating ∈ allowedLabels rating) ∧
    (rating = 1 →
      applyRatingRule lbl rating = "negative" ∨
      applyRatingRule lbl rating = "neutral") := by
  constructor
  · intro h2
    unfold applyRatingRule
    split_ifs with hm
    · exact hm
    · interval_cases rating <;> decide
  · intro h1e
    subst h1e
    unfold applyRatingRule
    split_ifs with hm
    · left
      have he : allowedLabels 1 = ["negative"] := by decide
      rw [he] at hm
      simpa using hm
    · right
      rfl

/-- Witness for C2 amended at label positive, rating 2. -/
theorem apply_rating_rule_allowed_witness :
    (1 : ℤ) ≤ 2 ∧ (2 : ℤ) ≤ 5 ∧
    ((2 ≤ (2 : ℤ) → applyRatingRule "positive" 2 ∈ allowedLabels 2) ∧
    ((2 : ℤ) = 1 →
      applyRatingRule "positive" 2 = "negative" ∨
      applyRatingRule "positive" 2 = "neutral")) :=
  ⟨by decide, by decide,
    apply_rating_rule_allowed "positive" 2 (by decide) (by decide)⟩

/-- C3: apply_rating_rule keeps an admissible ensemble label and falls
back to neutral otherwise; in particular at rating 1 a negative ensemble
label stays negative while positive and neutral both map to neutral,
even though neutral is not in allowedLabels 1. -/
theorem apply_rating_rule_spec (lbl : String) (rating : ℤ)
    (h1 : 1 ≤ rating) (h5 : rating ≤ 5) :
    (lbl ∈ allowedLabels rating → applyRatingRule lbl rating = lbl) ∧
    (lbl ∉ allowedLabels rating → applyRatingRule lbl rating = "neutral") ∧
    (rating = 1 →
      applyRatingRule "negative" rating = "negative" ∧
      applyRatingRule "positive" rating = "neutral" ∧
      applyRatingRule "neutral" rating = "neutral") := by
  refine ⟨?_, ?_, ?_⟩
  · intro h
    simp [applyRatingRule, h]
  · intro h
    simp [applyRatingRule, h]
  · intro h1e
    subst h1e
    exact ⟨by decide, by decide, by decide⟩

/-- Witness for C3 at label positive, rating 1. -/
theorem apply_rating_rule_spec_witness :
    (1 : ℤ) ≤ 1 ∧ (1 : ℤ) ≤ 5 ∧
    (("positive" ∈ allowedLabels 1 → applyRatingRule "positive" 1 = "positive") ∧
    ("positive" ∉ allowedLabels 1 → applyRatingRule "positive" 1 = "neutral") ∧
    ((1 : ℤ) = 1 →
      applyRatingRule "negative" 1 = "negative" ∧
      applyRatingRule "positive" 1 = "neutral" ∧
      applyRatingRule "neutral" 1 = "neutral")) :=
  ⟨by decide, by decide, apply_rating_rule_spec "positive" 1 (by decide) (by decide)⟩

/-- C10: the rule label is always either the ensemble label itself or
neutral; a neutral ensemble label yields a neutral rule label at every
rating, so a neutral-labelled review is never flagged. -/
theorem rule_label_cases (lbl : String) (rating : ℤ) :
    (applyRatingRule lbl rating = lbl ∨ applyRatingRule lbl rating = "neutral") ∧
    applyRatingRule "neutral" rating = "neutral" ∧
    (∀ e threshold : ℚ,
      flagDisagreement "neutral" (applyRatingRule "neutral" rating) e threshold =
        some false) := by
  have hneu : applyRatingRule "neutral" rating = "neutral" := by
    unfold applyRatingRule
    split_ifs <;> rfl
  refine ⟨?_, hneu, ?_⟩
  · unfold applyRatingRule
    split_ifs <;> simp
  · intro e threshold
    rw [hneu]
    exact @flagDisagreement_self "neutral" 0 (by decide) e threshold

/-- C4: the label of compute_ensemble is positive exactly on ensemble
scores at or above 0.05, negative exactly at or below minus 0.05, and
neutral exactly strictly in between; both thresholds are inclusive. -/
theorem compute_ensemble_label_spec (b v t : ℚ) :
    ((computeEnsemble b v t).label = "positive" ↔
      (computeEnsemble b v t).ensemble ≥ 0.05) ∧
    ((computeEnsemble b v t).label = "negative" ↔
      (computeEnsemble b v t).ensemble ≤ -0.05) ∧
    ((computeEnsemble b v t).label = "neutral" ↔
      (-0.05 < (computeEnsemble b v t).ensemble ∧
        (computeEnsemble b v t).ensemble < 0.05)) := by
  have hl : (computeEnsemble b v t).label = labelOf ((b + v + t) / 3) := rfl
  have he : (computeEnsemble b v t).ensemble = (b + v + t) / 3 := rfl
  rw [hl, he]
  rcases le_or_lt (0.05 : ℚ) ((b + v + t) / 3) with hp | hp
  · rw [labelOf_pos hp]
    refine ⟨⟨fun _ => hp, fun _ => rfl⟩, ⟨?_, ?_⟩, ⟨?_, ?_⟩⟩
    · intro h
      exact absurd h (by decide)
    · intro h
      exfalso
      linarith
    · intro h
      exact absurd h (by decide)
    · intro h
      exfalso
      linarith [h.2]
  · rcases le_or_lt ((b + v + t) / 3) (-0.05 : ℚ) with hn | hn
    · rw [labelOf_neg hn]
      refine ⟨⟨?_, ?_⟩, ⟨fun _ => hn, fun _ => rfl⟩, ⟨?_, ?_⟩⟩
      · intro h
        exact absurd h (by decide)
      · intro h
        exfalso
        linarith
      · intro h
        exact absurd h (by decide)
      · intro h
        exfalso
        linarith [h.1]
    · rw [labelOf_neu hn hp]
      refine ⟨⟨?_, ?_⟩, ⟨?_, ?_⟩, ⟨fun _ => ⟨hn, hp⟩, fun _ => rfl⟩⟩
      · intro h
        exact absurd h (by decide)
      · intro h
        exfalso
        linarith
      · intro h
        exact absurd h (by decide)
      · intro h
        exfalso
        linarith

/-- C5: the ensemble field of compute_ensemble is exactly the
equal-weight mean of the three scorer outputs, for all scores in the
scorer range. -/
theorem compute_ensemble_mean (b v t : ℚ)
    (_hb1 : -1 ≤ b) (_hb2 : b ≤ 1) (_hv1 : -1 ≤ v) (_hv2 : v ≤ 1)
    (_ht1 : -1 ≤ t) (_ht2 : t ≤ 1) :
    (computeEnsemble b v t).ensemble = (b + v + t) / 3 := rfl

/-- Witness for C5 at the scores 1, 1/2, 0. -/
theorem compute_ensemble_mean_witness :
    (-1 ≤ (1 : ℚ) ∧ (1 : ℚ) ≤ 1 ∧ -1 ≤ (1 / 2 : ℚ) ∧ (1 / 2 : ℚ) ≤ 1 ∧
      -1 ≤ (0 : ℚ) ∧ (0 : ℚ) ≤ 1) ∧
    (computeEnsemble 1 (1 / 2) 0).ensemble = (1 + 1 / 2 + 0) / 3 :=
  ⟨by norm_num,
    compute_ensemble_mean 1 (1 / 2) 0 (by norm_num) (by norm_num) (by norm_num)
      (by norm_num) (by norm_num) (by norm_num)⟩

/-- C6: the uncertainty field of compute_ensemble is the population
standard deviation of the three scorer outputs, here written through the
variance identity mean of squares minus square of mean; at the scores
1, -1, 0 it equals the square root of 2/3. -/
theorem compute_ensemble_uncertainty (b v t : ℚ) :
    (computeEnsemble b v t).uncertainty =
      Real.sqrt (((b : ℝ) ^ 2 + (v : ℝ) ^ 2 + (t : ℝ) ^ 2) / 3 -
        (((b : ℝ) + (v : ℝ) + (t : ℝ)) / 3) ^ 2) ∧
    (computeEnsemble 1 (-1) 0).uncertainty = Real.sqrt (2 / 3) := by
  constructor
  · show Real.sqrt ((popVariance b v t : ℚ) : ℝ) = _
    congr 1
    push_cast [popVariance]
    ring
  · show Real.sqrt ((popVariance 1 (-1) 0 : ℚ) : ℝ) = _
    congr 1
    norm_num [popVariance]

/-- Appending one image per element to an accumulator is map. -/
theorem foldl_append_eq_map {α β : Type} (f : α → β) (rows : List α)
    (acc : List β) :
    rows.foldl (fun records row => records ++ [f row]) acc =
      acc ++ rows.map f := by
  induction rows generalizing acc with
  | nil => simp
  | cons r rs ih => simp [ih]

/-- Zipping a list with its own image under map pairs each element with
its image. -/
theorem zip_map_self {α β : Type} (f : α → β) (l : List α) :
    l.zip (l.map f) = l.map fun a => (a, f a) := by
  induction l with
  | nil => rfl
  | cons a l ih => simp [ih]

/-- C7: on a frame with the required columns, run produces exactly one
output record per input row, in input order, pairing each original row
with the record holding the eight sentiment fields. -/
theorem run_one_record_per_row (score : String → ℚ × ℚ × ℚ)
    (text_col : String) (df : DataFrame)
    (hc : text_col ∈ df.columns) (hr : "rating" ∈ df.columns) :
    run score text_col df =
      Except.ok (df.rows.map fun row => (row, processRow score row)) ∧
    (df.rows.map fun row => (row, processRow score row)).length =
      df.rows.length := by
  constructor
  · unfold run
    rw [if_neg (by simp [hc, hr])]
    rw [foldl_append_eq_map, List.nil_append, zip_map_self]
  · simp

/-- Witness for C7 on a one-row frame with both required columns. -/
theorem run_one_record_per_row_witness :
    "normalized_review" ∈
      (DataFrame.mk ["normalized_review", "rating"] [⟨"ok", 4⟩]).columns ∧
    "rating" ∈
      (DataFrame.mk ["normalized_review", "rating"] [⟨"ok", 4⟩]).columns ∧
    (run (fun _ => (1, 0, 0)) "normalized_review"
        (DataFrame.mk ["normalized_review", "rating"] [⟨"ok", 4⟩]) =
      Except.ok ((DataFrame.mk ["normalized_review", "rating"]
          [⟨"ok", 4⟩]).rows.map fun row =>
        (row, processRow (fun _ => (1, 0, 0)) row)) ∧
    ((DataFrame.mk ["normalized_review", "rating"] [⟨"ok", 4⟩]).rows.map
        fun row => (row, processRow (fun _ => (1, 0, 0)) row)).length =
      (DataFrame.mk ["normalized_review", "rating"] [⟨"ok", 4⟩]).rows.length) :=
  ⟨by decide, by decide,
    run_one_record_per_row (fun _ => (1, 0, 0)) "normalized_review"
      (DataFrame.mk ["normalized_review", "rating"] [⟨"ok", 4⟩])
      (by decide) (by decide)⟩

/-- C8: run fails with the missing-columns error exactly when the text
column or the rating column is absent from the frame, before any record
is processed; with both columns present it never raises that error. -/
theorem run_missing_column_error (score : String → ℚ × ℚ × ℚ)
    (text_col : String) (df : DataFrame) :
    (run score text_col df = Except.error "Required columns missing" ↔
      (text_col ∉ df.columns ∨ "rating" ∉ df.columns)) ∧
    (text_col ∈ df.columns → "rating" ∈ df.columns →
      ∀ msg, run score text_col df ≠ Except.error msg) := by
  constructor
  · unfold run
    split_ifs with h
    · simp [h]
    · simp [h]
  · intro hc hr msg
    unfold run
    rw [if_neg (by simp [hc, hr])]
    simp

/-- Witness for C8 on a frame that lacks the text column. -/
theorem run_missing_column_error_witness :
    (run (fun _ => (0, 0, 0)) "normalized_review"
        (DataFrame.mk ["rating"] []) =
      Except.error "Required columns missing" ↔
      ("normalized_review" ∉ (DataFrame.mk ["rating"] ([] : List Row)).columns ∨
        "rating" ∉ (DataFrame.mk ["rating"] ([] : List Row)).columns)) ∧
    ("normalized_review" ∈ (DataFrame.mk ["rating"] ([] : List Row)).columns →
      "rating" ∈ (DataFrame.mk ["rating"] ([] : List Row)).columns →
      ∀ msg, run (fun _ => (0, 0, 0)) "normalized_review"
        (DataFrame.mk ["rating"] []) ≠ Except.error msg) :=
  run_missing_column_error (fun _ => (0, 0, 0)) "normalized_review"
    (DataFrame.mk ["rating"] [])

/-- Evaluation of flagDisagreement at a valid key of the numeric map. -/
theorem flagDisagreement_eq_decide {R : String} {rv : ℤ}
    (h : ruleValue R = some rv) (L : String) (e th : ℚ) :
    flagDisagreement L R e th =
      some (decide (L ≠ R) && decide (|e - (rv : ℚ)| > th)) := by
  simp [flagDisagreement, h]

/-- C9: over ratings 1 to 5, the composed pipeline flag (threshold label,
then rating rule, then disagreement flag at the default threshold 0.5)
is equivalent to the simpler rule that flags exactly when the rating is
1 or 2 and the ensemble score exceeds 0.5. -/
theorem pipeline_flag_refines_spec (rating : ℤ) (e : ℚ)
    (h1 : 1 ≤ rating) (h5 : rating ≤ 5) :
    pipelineFlag rating e = some (specFlag rating e) := by
  unfold pipelineFlag specFlag
  rcases le_or_lt (0.05 : ℚ) e with hp | hp
  · have habs : |e| = e := abs_of_nonneg (by linarith)
    rw [labelOf_pos hp]
    interval_cases rating
    · rw [show applyRatingRule "positive" 1 = "neutral" from by decide,
        @flagDisagreement_eq_decide "neutral" 0 (by decide) "positive" e (1 / 2)]
      simp [habs]
    · rw [show applyRatingRule "positive" 2 = "neutral" from by decide,
        @flagDisagreement_eq_decide "neutral" 0 (by decide) "positive" e (1 / 2)]
      simp [habs]
    · rw [show applyRatingRule "positive" 3 = "positive" from by decide,
        @flagDisagreement_eq_decide "positive" 1 (by decide) "positive" e (1 / 2)]
      simp
    · rw [show applyRatingRule "positive" 4 = "positive" from by decide,
        @flagDisagreement_eq_decide "positive" 1 (by decide) "positive" e (1 / 2)]
      simp
    · rw [show applyRatingRule "positive" 5 = "positive" from by decide,
        @flagDisagreement_eq_decide "positive" 1 (by decide) "positive" e (1 / 2)]
      simp
  · rcases le_or_lt e (-0.05 : ℚ) with hn | hn
    · have hlt : ¬ (e > 1 / 2) := by
        intro h
        linarith
      rw [labelOf_neg hn]
      interval_cases rating
      · rw [show applyRatingRule "negative" 1 = "negative" from by decide,
          @flagDisagreement_eq_decide "negative" (-1) (by decide) "negative" e (1 / 2)]
        simp [hlt]
        linarith
      · rw [show applyRatingRule "negative" 2 = "negative" from by decide,
          @flagDisagreement_eq_decide "negative" (-1) (by decide) "negative" e (1 / 2)]
        simp [hlt]
        linarith
      · rw [show applyRatingRule "negative" 3 = "negative" from by decide,
          @flagDisagreement_eq_decide "negative" (-1) (by decide) "negative" e (1 / 2)]
        simp
      · rw [show applyRatingRule "negative" 4 = "negative" from by decide,
          @flagDisagreement_eq_decide "negative" (-1) (by decide) "negative" e (1 / 2)]
        simp
      · rw [show applyRatingRule "negative" 5 = "negative" from by decide,
          @flagDisagreement_eq_decide "negative" (-1) (by decide) "negative" e (1 / 2)]
        simp
    · have hlt : ¬ (e > 1 / 2) := by
        intro h
        linarith
      rw [labelOf_neu hn hp]
      interval_cases rating
      · rw [show applyRatingRule "neutral" 1 = "neutral" from by decide,
          @flagDisagreement_eq_decide "neutral" 0 (by decide) "neutral" e (1 / 2)]
        simp [hlt]
        linarith
      · rw [show applyRatingRule "neutral" 2 = "neutral" from by decide,
          @flagDisagreement_eq_decide "neutral" 0 (by decide) "neutral" e (1 / 2)]
        simp [hlt]
        linarith
      · rw [show applyRatingRule "neutral" 3 = "neutral" from by decide,
          @flagDisagreement_eq_decide "neutral" 0 (by decide) "neutral" e (1 / 2)]
        simp
      · rw [show applyRatingRule "neutral" 4 = "neutral" from by decide,
          @flagDisagreement_eq_decide "neutral" 0 (by decide) "neutral" e (1 / 2)]
        simp
      · rw [show applyRatingRule "neutral" 5 = "neutral" from by decide,
          @flagDisagreement_eq_decide "neutral" 0 (by decide) "neutral" e (1 / 2)]
        simp

/-- Witness for C9 at rating 1 and ensemble score 1. -/
theorem pipeline_flag_refines_spec_witness :
    (1 : ℤ) ≤ 1 ∧ (1 : ℤ) ≤ 5 ∧
    pipelineFlag 1 1 = some (specFlag 1 1) :=
  ⟨by decide, by decide, pipeline_flag_refines_spec 1 1 (by decide) (by decide)⟩

end SentimentEnsembler
